import Mathlib

/-!
# Verification of `calculadora_gasificador.py`

Shallow embedding of the LNG gasifier sizing calculator
(`src/calculadora_gasificador.py`) over the real numbers, together with
theorems settling the specification's claims about it.

Python floats are modelled as real numbers (`ℝ`), Python ints as `ℤ`, and
Python's fractional-power operator `**` as `Real.rpow` (on the non-negative
bases arising in the physical domain this agrees with Python's semantics;
for the error-behaviour analysis a separate complex-valued model
`h_coefficient_py` follows Python's principal-branch power and its
`ZeroDivisionError` on division by zero, returning `Option ℂ`).
-/

noncomputable section

/-! ## Physical constants (source lines 14–24) -/

def RHO_LNG : ℝ := 430
def CP_LNG : ℝ := 2.5e3
def RHO_GNG : ℝ := 1.0
def CP_GNG : ℝ := 2.1e3
def LATENT : ℝ := 510e3
def MU_AIR : ℝ := 1.8e-5
def K_AIR : ℝ := 0.026
def PR_AIR : ℝ := 0.71

/-! ## FinTubeGeometry (source lines 27–40) -/

structure FinTubeGeometry where
  tube_od_mm : ℝ
  fin_height_mm : ℝ
  fins_per_tube : ℤ
  fin_efficiency : ℝ

/-- `FinTubeGeometry.area_per_meter` (source lines 34–40):
`A_primary = pi * (tube_od_mm/1000)`,
`A_fins = fins_per_tube * (2 * pi * (tube_od_mm/1000) * fin_height_mm/1000)`,
result `A_primary + fin_efficiency * A_fins`. -/
def FinTubeGeometry.area_per_meter (g : FinTubeGeometry) : ℝ :=
  let A_primary := Real.pi * (g.tube_od_mm / 1000)
  let A_fins := (g.fins_per_tube : ℝ) *
    (2 * Real.pi * (g.tube_od_mm / 1000) * g.fin_height_mm / 1000)
  A_primary + g.fin_efficiency * A_fins

/-! ## AmbientConditions (source lines 43–61) -/

structure AmbientConditions where
  T_air : ℝ
  v_wind : ℝ

/-- Grashof number (source line 52):
`Gr = 9.81 * beta * (T_air + 273.15 - (-160 + 273.15)) * D_h**3 / MU_AIR**2`
with `beta = 1/273.15`. -/
def AmbientConditions.Gr (a : AmbientConditions) (D_h : ℝ) : ℝ :=
  9.81 * (1 / 273.15) * (a.T_air + 273.15 - (-160 + 273.15)) * D_h ^ 3 / MU_AIR ^ 2

/-- Rayleigh number (source line 53): `Ra = Gr * PR_AIR`. -/
def AmbientConditions.Ra (a : AmbientConditions) (D_h : ℝ) : ℝ :=
  a.Gr D_h * PR_AIR

/-- Churchill–Chu natural-convection Nusselt number (source line 54):
`Nu_nat = (0.825 + 0.387*Ra**(1/6) / (1 + (0.492/PR_AIR)**(9/16))**(8/27))**2`. -/
def AmbientConditions.Nu_nat (a : AmbientConditions) (D_h : ℝ) : ℝ :=
  (0.825 + 0.387 * (a.Ra D_h) ^ ((1 : ℝ) / 6) /
    (1 + (0.492 / PR_AIR) ^ ((9 : ℝ) / 16)) ^ ((8 : ℝ) / 27)) ^ 2

/-- Reynolds number (source line 56): `Re = RHO_GNG * v_wind * D_h / MU_AIR`. -/
def AmbientConditions.Re (a : AmbientConditions) (D_h : ℝ) : ℝ :=
  RHO_GNG * a.v_wind * D_h / MU_AIR

/-- Zukauskas forced-convection Nusselt number (source lines 57–58):
`C, m = (0.3, 0.62) if Re < 1e5 else (0.027, 0.805)`;
`Nu_for = C * Re**m * PR_AIR**0.37`. -/
def AmbientConditions.Nu_for (a : AmbientConditions) (D_h : ℝ) : ℝ :=
  (if a.Re D_h < 1e5 then (0.3 : ℝ) else 0.027) *
    (a.Re D_h) ^ (if a.Re D_h < 1e5 then (0.62 : ℝ) else 0.805) *
    PR_AIR ^ (0.37 : ℝ)

/-- Power-mean blend (source lines 59–60): `Nu_mix = (Nu_nat**3 + Nu_for**3)**(1/3)`. -/
def AmbientConditions.Nu_mix (a : AmbientConditions) (D_h : ℝ) : ℝ :=
  ((a.Nu_nat D_h) ^ 3 + (a.Nu_for D_h) ^ 3) ^ ((1 : ℝ) / 3)

/-- `AmbientConditions.h_coefficient` (source lines 48–61):
returns `Nu_mix * K_AIR / D_h`. -/
def AmbientConditions.h_coefficient (a : AmbientConditions) (D_h : ℝ) : ℝ :=
  a.Nu_mix D_h * K_AIR / D_h

/-! ## ModuleConfig (source lines 64–78) -/

structure ModuleConfig where
  tubes_x : ℤ
  tubes_y : ℤ
  spacing_x_mm : ℝ
  spacing_y_mm : ℝ

/-- `ModuleConfig.footprint_mm` (source lines 71–74):
`fx = (tubes_x - 1)*spacing_x_mm + tube_d_mm`, `fy` analogously. -/
def ModuleConfig.footprint_mm (m : ModuleConfig) (tube_d_mm : ℝ) : ℝ × ℝ :=
  (((m.tubes_x : ℝ) - 1) * m.spacing_x_mm + tube_d_mm,
   ((m.tubes_y : ℝ) - 1) * m.spacing_y_mm + tube_d_mm)

/-- `ModuleConfig.n_tubes` (source lines 76–78): `tubes_x * tubes_y`. -/
def ModuleConfig.n_tubes (m : ModuleConfig) : ℤ :=
  m.tubes_x * m.tubes_y

/-! ## Gasifier (source lines 81–119) -/

structure Gasifier where
  geom : FinTubeGeometry
  module : ModuleConfig
  tube_length_mm : ℝ
  ambient : AmbientConditions

/-- `Gasifier.capacity` (source lines 88–103). The cold-start branch of the
source also computes `thermal_time_constant()` into a local that is never
read; being pure, that dead binding has no observable effect and is dropped
here. -/
def Gasifier.capacity (g : Gasifier) (mode : String) : ℝ :=
  let D_h := (g.geom.tube_od_mm + 2 * g.geom.fin_height_mm) / 1000
  let h := g.ambient.h_coefficient D_h
  let U := h
  let A_per_tube := g.geom.area_per_meter * (g.tube_length_mm / 1000)
  let Qtot := U * A_per_tube * (g.ambient.T_air - (-160))
  let m_dot := Qtot / (LATENT + CP_LNG * ((-160) - (-160)))
  let nTubes := (g.module.n_tubes : ℝ)
  let flow_total := m_dot * nTubes * 3600 / 0.693
  if mode = "cold-start" then flow_total * 0.5 else flow_total

/-- `Gasifier.thermal_time_constant` (source lines 105–109). -/
def Gasifier.thermal_time_constant (g : Gasifier) : ℝ :=
  let mass_Al := 2700 * (g.geom.area_per_meter * 0.002) *
    (g.tube_length_mm / 1000) * (g.module.n_tubes : ℝ)
  let Cth := mass_Al * 900
  let hA := g.ambient.h_coefficient ((g.geom.tube_od_mm + 2 * g.geom.fin_height_mm) / 1000) *
    g.geom.area_per_meter * (g.tube_length_mm / 1000) * (g.module.n_tubes : ℝ)
  Cth / hA / 3600

/-- Python's built-in `round` on a float: round half to even, returning an int. -/
def pyround (x : ℝ) : ℤ :=
  if Int.fract x < 1 / 2 then ⌊x⌋
  else if 1 / 2 < Int.fract x then ⌊x⌋ + 1
  else if 2 ∣ ⌊x⌋ then ⌊x⌋ else ⌊x⌋ + 1

/-- The record returned by `Gasifier.summary` (source lines 111–119). -/
structure SummaryData where
  n_tubes : ℤ
  area_total_m2 : ℝ
  capacity_Nm3_h : ℤ
  footprint_x : ℤ
  footprint_y : ℤ
  footprint_z : ℝ
  tau_h : ℝ

/-- `Gasifier.summary` (source lines 111–119): the footprint is evaluated at
`tube_od_mm + 2*fin_height_mm`; `round(x, 1)` and `round(x, 2)` are modelled
as `pyround` of the scaled value, divided back. -/
def Gasifier.summary (g : Gasifier) : SummaryData :=
  let fxy := g.module.footprint_mm (g.geom.tube_od_mm + 2 * g.geom.fin_height_mm)
  { n_tubes := g.module.n_tubes
    area_total_m2 :=
      (pyround (10 * (g.geom.area_per_meter * (g.tube_length_mm / 1000) *
        (g.module.n_tubes : ℝ))) : ℝ) / 10
    capacity_Nm3_h := pyround (g.capacity "steady")
    footprint_x := pyround fxy.1
    footprint_y := pyround fxy.2
    footprint_z := g.tube_length_mm
    tau_h := (pyround (100 * g.thermal_time_constant) : ℝ) / 100 }

/-! ## Python error/complex semantics of `h_coefficient`

Python raises `ZeroDivisionError` on `x / 0.0` (modelled as `none`), and a
float `**` with a negative base and fractional exponent returns a complex
number on the principal branch (exactly `Complex.cpow`); on non-negative
bases `Complex.cpow` agrees with Python's real-valued result. -/

/-- `h_coefficient` with Python's evaluation semantics: `Option ℂ`-valued,
`none` exactly when the final `/ D_h` would raise `ZeroDivisionError`. -/
def AmbientConditions.h_coefficient_py (a : AmbientConditions) (D_h : ℝ) : Option ℂ :=
  let Gr : ℝ := 9.81 * (1 / 273.15) * (a.T_air + 273.15 - (-160 + 273.15)) * D_h ^ 3 / MU_AIR ^ 2
  let Ra : ℝ := Gr * PR_AIR
  let Nu_nat : ℂ := (0.825 + 0.387 * (Ra : ℂ) ^ ((1 : ℂ) / 6) /
    (1 + ((0.492 : ℂ) / (PR_AIR : ℂ)) ^ ((9 : ℂ) / 16)) ^ ((8 : ℂ) / 27)) ^ 2
  let Re : ℝ := RHO_GNG * a.v_wind * D_h / MU_AIR
  let Nu_for : ℂ := (if Re < 1e5 then (0.3 : ℂ) else 0.027) *
    (Re : ℂ) ^ (if Re < 1e5 then ((0.62 : ℂ)) else 0.805) * (PR_AIR : ℂ) ^ ((0.37 : ℂ))
  let Nu_mix : ℂ := (Nu_nat ^ 3 + Nu_for ^ 3) ^ ((1 : ℂ) / 3)
  if D_h = 0 then none else some (Nu_mix * (K_AIR : ℂ) / (D_h : ℂ))

/-! ## Definitions written from the specification's words -/

/-- Spec 4.1 as claimed: `area_per_meter` = bare-tube circumference plus
`fin_efficiency` times the total fin lateral area, where the lateral area of
each fin is `2 × (circumference at the fin radius, i.e. at tube radius plus
fin height) × fin height`. Lengths converted mm → m as in the source. -/
def FinTubeGeometry.area_per_meter_claim (g : FinTubeGeometry) : ℝ :=
  Real.pi * (g.tube_od_mm / 1000) +
    g.fin_efficiency * ((g.fins_per_tube : ℝ) *
      (2 * (2 * Real.pi * (g.tube_od_mm / 1000 / 2 + g.fin_height_mm / 1000)) *
        (g.fin_height_mm / 1000)))

/-- Spec 4.2: Grashof number from g = 9.81, β = 1/273.15, the temperature
difference between ambient air and the −160 °C reference, and `D_h³/μ²`. -/
def Grashof_spec (a : AmbientConditions) (D_h : ℝ) : ℝ :=
  9.81 * (1 / 273.15) * (a.T_air - (-160)) * D_h ^ 3 / MU_AIR ^ 2

/-- Spec 4.2: Rayleigh = Grashof × Prandtl. -/
def Rayleigh_spec (a : AmbientConditions) (D_h : ℝ) : ℝ :=
  Grashof_spec a D_h * PR_AIR

/-- Spec 4.2: Churchill–Chu vertical-plate correlation at the Rayleigh number. -/
def Nu_natural_spec (a : AmbientConditions) (D_h : ℝ) : ℝ :=
  (0.825 + 0.387 * (Rayleigh_spec a D_h) ^ ((1 : ℝ) / 6) /
    (1 + (0.492 / PR_AIR) ^ ((9 : ℝ) / 16)) ^ ((8 : ℝ) / 27)) ^ 2

/-- Spec 4.2: Reynolds number from gas density, wind speed, `D_h`, air viscosity. -/
def Reynolds_spec (a : AmbientConditions) (D_h : ℝ) : ℝ :=
  RHO_GNG * a.v_wind * D_h / MU_AIR

/-- Spec 4.2: Zukauskas `Nu = C·Re^m·Pr^0.37`, `(C,m) = (0.3, 0.62)` for
`Re < 1e5` and `(0.027, 0.805)` at or above the threshold. -/
def Nu_forced_spec (a : AmbientConditions) (D_h : ℝ) : ℝ :=
  (if Reynolds_spec a D_h < 1e5 then (0.3 : ℝ) else 0.027) *
    (Reynolds_spec a D_h) ^ (if Reynolds_spec a D_h < 1e5 then (0.62 : ℝ) else 0.805) *
    PR_AIR ^ (0.37 : ℝ)

/-- Spec 4.2: `Nu_mix = (Nu_natural³ + Nu_forced³)^(1/3)`. -/
def Nu_mix_spec (a : AmbientConditions) (D_h : ℝ) : ℝ :=
  ((Nu_natural_spec a D_h) ^ 3 + (Nu_forced_spec a D_h) ^ 3) ^ ((1 : ℝ) / 3)

/-- Spec 4.2: `h = Nu_mix × air thermal conductivity / D_h`. -/
def h_coefficient_spec (a : AmbientConditions) (D_h : ℝ) : ℝ :=
  Nu_mix_spec a D_h * K_AIR / D_h

/-- Spec 4.4 steps 1–6 for mode `"steady"`: `D_h` from the finned diameter,
`U = h`, per-tube area, `Q = U·A·(T_air − (−160))`, mass flow `Q / latent`
(sensible-heat term zero), total flow `ṁ · n_tubes · 3600 / 0.693`. -/
def capacity_steady_spec (g : Gasifier) : ℝ :=
  let D_h := (g.geom.tube_od_mm + 2 * g.geom.fin_height_mm) / 1000
  let U := g.ambient.h_coefficient D_h
  let A_per_tube := g.geom.area_per_meter * (g.tube_length_mm / 1000)
  let Q := U * A_per_tube * (g.ambient.T_air - (-160))
  let m_dot := Q / LATENT
  m_dot * (g.module.n_tubes : ℝ) * 3600 / 0.693

/-- Spec 4.4: `τ` in hours = `Cth / (h × total exposed area) / 3600`, with
`Cth` = aluminum mass × 900 J/kg·K and aluminum mass = per-tube exposed area
× 2 mm wall × 2700 kg/m³ × tube count. -/
def tau_hours_spec (g : Gasifier) : ℝ :=
  let area_total := g.geom.area_per_meter * (g.tube_length_mm / 1000) * (g.module.n_tubes : ℝ)
  let mass_Al := (g.geom.area_per_meter * (g.tube_length_mm / 1000)) * 0.002 * 2700 *
    (g.module.n_tubes : ℝ)
  let Cth := mass_Al * 900
  let h := g.ambient.h_coefficient ((g.geom.tube_od_mm + 2 * g.geom.fin_height_mm) / 1000)
  Cth / (h * area_total) / 3600

/-- The worked example's gasifier (source spec §8, scenario A), used to
instantiate theorems with hypotheses at a concrete input. -/
def G0 : Gasifier := ⟨⟨28, 200, 12, 0.85⟩, ⟨9, 8, 215, 300⟩, 4600, ⟨15, 0.5⟩⟩

/-- `Nu_for` with the below-threshold Zukauskas constants `(C, m) = (0.3, 0.62)`
applied unconditionally. -/
def AmbientConditions.Nu_for_below (a : AmbientConditions) (D_h : ℝ) : ℝ :=
  0.3 * (a.Re D_h) ^ ((0.62 : ℝ)) * PR_AIR ^ (0.37 : ℝ)

/-- `h_coefficient` with the below-threshold Zukauskas constants applied
unconditionally: it agrees with `h_coefficient` wherever `Re < 1e5` and is
continuous across the threshold. -/
def AmbientConditions.h_below (a : AmbientConditions) (D_h : ℝ) : ℝ :=
  ((a.Nu_nat D_h) ^ 3 + (a.Nu_for_below D_h) ^ 3) ^ ((1 : ℝ) / 3) * K_AIR / D_h

/-! ## Helper lemmas -/

lemma area_per_meter_expand (D h : ℝ) (N : ℤ) (ε : ℝ) :
    FinTubeGeometry.area_per_meter ⟨D, h, N, ε⟩ =
      Real.pi * (D / 1000) + ε * (N : ℝ) * (2 * Real.pi * (D / 1000) / 1000) * h := by
  unfold FinTubeGeometry.area_per_meter
  ring

/-! At `T_air = 15 °C` and `D_h = 1 m` the Reynolds number reaches the `1e5`
threshold exactly at wind speed `v = 1.8 m/s`
(`Re = 1.0 · v · 1 / 1.8e-5 = v / 1.8e-5`). -/

lemma Re_at_threshold : AmbientConditions.Re ⟨15, 1.8⟩ 1 = 1e5 := by
  unfold AmbientConditions.Re RHO_GNG MU_AIR
  norm_num

lemma h_below_agrees_left (v : ℝ) (hv : v < 1.8) :
    AmbientConditions.h_coefficient ⟨15, v⟩ 1 = AmbientConditions.h_below ⟨15, v⟩ 1 := by
  have hRe : AmbientConditions.Re ⟨15, v⟩ 1 < 1e5 := by
    unfold AmbientConditions.Re RHO_GNG MU_AIR
    rw [div_lt_iff₀ (by norm_num)]
    nlinarith
  unfold AmbientConditions.h_coefficient AmbientConditions.h_below AmbientConditions.Nu_mix
    AmbientConditions.Nu_for AmbientConditions.Nu_for_below
  rw [if_pos hRe, if_pos hRe]

lemma h_below_continuousAt :
    ContinuousAt (fun v : ℝ => AmbientConditions.h_below ⟨15, v⟩ 1) 1.8 := by
  show ContinuousAt (fun v : ℝ =>
    ((AmbientConditions.Nu_nat ⟨15, v⟩ 1) ^ 3 +
      (0.3 * (RHO_GNG * v * 1 / MU_AIR) ^ ((0.62 : ℝ)) * PR_AIR ^ (0.37 : ℝ)) ^ 3) ^
        ((1 : ℝ) / 3) * K_AIR / 1) 1.8
  have hin : ContinuousAt (fun v : ℝ => RHO_GNG * v * 1 / MU_AIR) 1.8 :=
    ContinuousAt.div_const ((continuousAt_const.mul continuousAt_id).mul continuousAt_const) _
  have h1 : ContinuousAt (fun v : ℝ => (RHO_GNG * v * 1 / MU_AIR) ^ ((0.62 : ℝ))) 1.8 :=
    hin.rpow_const (Or.inr (by norm_num))
  have h2 : ContinuousAt (fun v : ℝ =>
      0.3 * (RHO_GNG * v * 1 / MU_AIR) ^ ((0.62 : ℝ)) * PR_AIR ^ (0.37 : ℝ)) 1.8 :=
    (continuousAt_const.mul h1).mul continuousAt_const
  have h3 : ContinuousAt (fun v : ℝ =>
      (AmbientConditions.Nu_nat ⟨15, v⟩ 1) ^ 3 +
        (0.3 * (RHO_GNG * v * 1 / MU_AIR) ^ ((0.62 : ℝ)) * PR_AIR ^ (0.37 : ℝ)) ^ 3) 1.8 :=
    ContinuousAt.add continuousAt_const (h2.pow 3)
  exact ((h3.rpow_const (Or.inr (by norm_num))).mul continuousAt_const).div_const 1

lemma zukauskas_constants_mismatch :
    (0.027 : ℝ) * (1e5 : ℝ) ^ ((0.805 : ℝ)) < 0.3 * (1e5 : ℝ) ^ ((0.62 : ℝ)) := by
  have hsplit : (1e5 : ℝ) ^ ((0.805 : ℝ)) =
      (1e5 : ℝ) ^ ((0.62 : ℝ)) * (1e5 : ℝ) ^ ((0.185 : ℝ)) := by
    rw [← Real.rpow_add (by norm_num : (0 : ℝ) < 1e5)]
    norm_num
  have hX : (0 : ℝ) < (1e5 : ℝ) ^ ((0.62 : ℝ)) := Real.rpow_pos_of_pos (by norm_num) _
  have hY : (1e5 : ℝ) ^ ((0.185 : ℝ)) < 100 / 9 := by
    have hpow : ((1e5 : ℝ) ^ ((0.185 : ℝ))) ^ (200 : ℕ) = (10 : ℝ) ^ (185 : ℕ) := by
      rw [← Real.rpow_natCast ((1e5 : ℝ) ^ ((0.185 : ℝ))) 200,
        ← Real.rpow_mul (by norm_num : (0 : ℝ) ≤ 1e5),
        show ((0.185 : ℝ) * ((200 : ℕ) : ℝ)) = ((37 : ℕ) : ℝ) by norm_num,
        Real.rpow_natCast]
      norm_num
    apply lt_of_pow_lt_pow_left₀ 200 (by norm_num : (0 : ℝ) ≤ 100 / 9)
    rw [hpow, div_pow, lt_div_iff₀ (by positivity)]
    norm_num
  calc (0.027 : ℝ) * (1e5 : ℝ) ^ ((0.805 : ℝ))
      = (0.027 * (1e5 : ℝ) ^ ((0.185 : ℝ))) * (1e5 : ℝ) ^ ((0.62 : ℝ)) := by
        rw [hsplit]; ring
    _ < 0.3 * (1e5 : ℝ) ^ ((0.62 : ℝ)) := by
        apply mul_lt_mul_of_pos_right _ hX
        linarith

lemma h_jump_lt :
    AmbientConditions.h_coefficient ⟨15, 1.8⟩ 1 < AmbientConditions.h_below ⟨15, 1.8⟩ 1 := by
  have hPR : (0 : ℝ) < PR_AIR ^ (0.37 : ℝ) :=
    Real.rpow_pos_of_pos (by norm_num [PR_AIR]) _
  have hNf : AmbientConditions.Nu_for ⟨15, 1.8⟩ 1 =
      0.027 * (1e5 : ℝ) ^ ((0.805 : ℝ)) * PR_AIR ^ (0.37 : ℝ) := by
    unfold AmbientConditions.Nu_for
    rw [Re_at_threshold, if_neg (by norm_num : ¬ ((1e5 : ℝ) < 1e5)),
      if_neg (by norm_num : ¬ ((1e5 : ℝ) < 1e5))]
  have hNfb : AmbientConditions.Nu_for_below ⟨15, 1.8⟩ 1 =
      0.3 * (1e5 : ℝ) ^ ((0.62 : ℝ)) * PR_AIR ^ (0.37 : ℝ) := by
    unfold AmbientConditions.Nu_for_below
    rw [Re_at_threshold]
  have hNf_nonneg : 0 ≤ AmbientConditions.Nu_for ⟨15, 1.8⟩ 1 := by
    rw [hNf]
    exact mul_nonneg (mul_nonneg (by norm_num) (Real.rpow_nonneg (by norm_num) _)) hPR.le
  have hNf_lt : AmbientConditions.Nu_for ⟨15, 1.8⟩ 1 <
      AmbientConditions.Nu_for_below ⟨15, 1.8⟩ 1 := by
    rw [hNf, hNfb]
    exact mul_lt_mul_of_pos_right zukauskas_constants_mismatch hPR
  have hNuNat_nonneg : 0 ≤ AmbientConditions.Nu_nat ⟨15, 1.8⟩ 1 := by
    unfold AmbientConditions.Nu_nat
    positivity
  have hmix_lt : AmbientConditions.Nu_mix ⟨15, 1.8⟩ 1 <
      ((AmbientConditions.Nu_nat ⟨15, 1.8⟩ 1) ^ 3 +
        (AmbientConditions.Nu_for_below ⟨15, 1.8⟩ 1) ^ 3) ^ ((1 : ℝ) / 3) := by
    unfold AmbientConditions.Nu_mix
    apply Real.rpow_lt_rpow
      (add_nonneg (pow_nonneg hNuNat_nonneg 3) (pow_nonneg hNf_nonneg 3))
      (add_lt_add_left (pow_lt_pow_left₀ hNf_lt hNf_nonneg (by norm_num)) _)
      (by norm_num)
  unfold AmbientConditions.h_coefficient AmbientConditions.h_below
  rw [div_one, div_one]
  exact mul_lt_mul_of_pos_right hmix_lt (by norm_num [K_AIR])

/-! ## Claims -/

/-- C1 (counterexample): at the default geometry (tube OD 28 mm, fin height
200 mm, 12 fins, ε = 0.85) the code's `area_per_meter` differs from the
claimed formula whose per-fin lateral area uses the circumference at tube
radius plus fin height. -/
theorem area_per_meter_fin_radius_claim_false :
    FinTubeGeometry.area_per_meter ⟨28, 200, 12, 0.85⟩ ≠
      FinTubeGeometry.area_per_meter_claim ⟨28, 200, 12, 0.85⟩ := by
  unfold FinTubeGeometry.area_per_meter FinTubeGeometry.area_per_meter_claim
  intro hEq
  push_cast at hEq
  nlinarith [Real.pi_pos, hEq]

/-- C1 (amended): `area_per_meter` equals the bare-tube circumference plus
`fin_efficiency` times the total fin lateral area, where the lateral area of
each fin is `2 × (bare-tube circumference, i.e. at the tube outer diameter)
× fin height` — the circumference at the fin base, not at tube radius plus
fin height. -/
theorem area_per_meter_bare_circumference (g : FinTubeGeometry) :
    g.area_per_meter = Real.pi * (g.tube_od_mm / 1000) +
      g.fin_efficiency * ((g.fins_per_tube : ℝ) *
        (2 * (Real.pi * (g.tube_od_mm / 1000)) * (g.fin_height_mm / 1000))) := by
  unfold FinTubeGeometry.area_per_meter
  ring

/-- C2: for `D_h > 0`, `h_coefficient` equals the specification's formula:
`Nu_mix × k_air / D_h` with `Nu_mix = (Nu_natural³ + Nu_forced³)^(1/3)`,
Churchill–Chu natural convection at `Ra = Gr·Pr`, and Zukauskas forced
convection with the `1e5` Reynolds threshold. -/
theorem h_coefficient_matches_spec (a : AmbientConditions) (D_h : ℝ) (_hD : 0 < D_h) :
    a.h_coefficient D_h = h_coefficient_spec a D_h := by
  have hT : a.T_air + 273.15 - (-160 + 273.15) = a.T_air - (-160) := by ring
  unfold AmbientConditions.h_coefficient h_coefficient_spec AmbientConditions.Nu_mix
    Nu_mix_spec AmbientConditions.Nu_for Nu_forced_spec AmbientConditions.Nu_nat
    Nu_natural_spec AmbientConditions.Re Reynolds_spec AmbientConditions.Ra Rayleigh_spec
    AmbientConditions.Gr Grashof_spec
  rw [hT]

/-- C2 witness at `a = (15 °C, 0.5 m/s)`, `D_h = 0.428 m`. -/
theorem h_coefficient_matches_spec_witness :
    (0 : ℝ) < 0.428 ∧
      AmbientConditions.h_coefficient ⟨15, 0.5⟩ 0.428 = h_coefficient_spec ⟨15, 0.5⟩ 0.428 :=
  ⟨by norm_num, h_coefficient_matches_spec ⟨15, 0.5⟩ 0.428 (by norm_num)⟩

/-- C3 (counterexample): `h_coefficient` is NOT continuous across the
Reynolds threshold: at `T_air = 15 °C`, `D_h = 1 m`, as a function of wind
speed it is discontinuous at `v = 1.8 m/s`, the point where `Re = 1e5`. -/
theorem h_coefficient_discontinuous_at_threshold :
    ¬ ContinuousAt (fun v : ℝ => AmbientConditions.h_coefficient ⟨15, v⟩ 1) 1.8 := by
  intro hc
  have hev : (fun v : ℝ => AmbientConditions.h_coefficient ⟨15, v⟩ 1) =ᶠ[nhdsWithin 1.8 (Set.Iio 1.8)]
      (fun v : ℝ => AmbientConditions.h_below ⟨15, v⟩ 1) :=
    eventually_nhdsWithin_of_forall (fun v hv => h_below_agrees_left v hv)
  have hf : Filter.Tendsto (fun v : ℝ => AmbientConditions.h_coefficient ⟨15, v⟩ 1)
      (nhdsWithin 1.8 (Set.Iio 1.8)) (nhds (AmbientConditions.h_coefficient ⟨15, 1.8⟩ 1)) :=
    hc.continuousWithinAt
  have hg : Filter.Tendsto (fun v : ℝ => AmbientConditions.h_below ⟨15, v⟩ 1)
      (nhdsWithin 1.8 (Set.Iio 1.8)) (nhds (AmbientConditions.h_below ⟨15, 1.8⟩ 1)) :=
    h_below_continuousAt.continuousWithinAt
  have hf' : Filter.Tendsto (fun v : ℝ => AmbientConditions.h_coefficient ⟨15, v⟩ 1)
      (nhdsWithin 1.8 (Set.Iio 1.8)) (nhds (AmbientConditions.h_below ⟨15, 1.8⟩ 1)) :=
    Filter.Tendsto.congr' hev.symm hg
  exact absurd (tendsto_nhds_unique hf hf') (ne_of_lt h_jump_lt)

/-- C3 (amended): the power-mean blend does not make `h_coefficient`
continuous across the `Re = 1e5` threshold, because the Zukauskas constants
do not match there. At `T_air = 15 °C`, `D_h = 1 m`: below the threshold
(`v < 1.8 m/s`) `h_coefficient` coincides with the continuous
below-threshold formula `h_below`, yet at the threshold itself its value
drops strictly below `h_below`'s — a downward jump. -/
theorem h_coefficient_threshold_jump :
    (fun v : ℝ => AmbientConditions.h_coefficient ⟨15, v⟩ 1) =ᶠ[nhdsWithin 1.8 (Set.Iio 1.8)]
      (fun v : ℝ => AmbientConditions.h_below ⟨15, v⟩ 1)
    ∧ ContinuousAt (fun v : ℝ => AmbientConditions.h_below ⟨15, v⟩ 1) 1.8
    ∧ AmbientConditions.h_coefficient ⟨15, 1.8⟩ 1 < AmbientConditions.h_below ⟨15, 1.8⟩ 1 :=
  ⟨eventually_nhdsWithin_of_forall (fun v hv => h_below_agrees_left v hv),
    h_below_continuousAt, h_jump_lt⟩

/-- C4: `capacity "steady"` equals the specification's chain: finned diameter,
`U = h`, per-tube area, `Q = U·A·(T_air + 160)`, mass flow `Q / latent` with
zero sensible-heat term, scaled by tube count and `3600 / 0.693`. -/
theorem capacity_steady_matches_spec (g : Gasifier) :
    g.capacity "steady" = capacity_steady_spec g := by
  simp only [Gasifier.capacity, capacity_steady_spec]
  rw [if_neg (by simp : ¬ ("steady" = "cold-start"))]
  norm_num

/-- C5: for identical inputs, `capacity "cold-start"` is exactly half of
`capacity "steady"`; the thermal time constant computed in the cold-start
branch of the source is dead code and does not affect the result. -/
theorem capacity_cold_start_half_steady (g : Gasifier) :
    g.capacity "cold-start" = 0.5 * g.capacity "steady" := by
  have hne : ¬ ("steady" = "cold-start") := by simp
  have hc : ("cold-start" : String) = "cold-start" := rfl
  simp only [Gasifier.capacity, if_neg hne, if_pos hc, if_true]
  ring

/-- C6: `thermal_time_constant` equals the specification's formula
`Cth / (h × total exposed area) / 3600` with `Cth` from the aluminum mass
estimated as per-tube exposed area × 2 mm × 2700 kg/m³ × tube count × 900. -/
theorem thermal_time_constant_matches_spec (g : Gasifier) :
    g.thermal_time_constant = tau_hours_spec g := by
  simp only [Gasifier.thermal_time_constant, tau_hours_spec]
  ring

/-- C7: `footprint_mm d` is `((tubes_x − 1)·spacing_x + d, (tubes_y − 1)·spacing_y + d)`,
and the footprint reported by `summary` is evaluated at the finned outer
diameter `tube_od + 2·fin_height`, not the bare tube diameter. -/
theorem footprint_formula_and_summary_finned_diameter :
    (∀ (m : ModuleConfig) (d : ℝ),
        m.footprint_mm d = (((m.tubes_x : ℝ) - 1) * m.spacing_x_mm + d,
          ((m.tubes_y : ℝ) - 1) * m.spacing_y_mm + d))
    ∧ (∀ g : Gasifier,
        (g.summary).footprint_x = pyround
            (((g.module.tubes_x : ℝ) - 1) * g.module.spacing_x_mm +
              (g.geom.tube_od_mm + 2 * g.geom.fin_height_mm)) ∧
        (g.summary).footprint_y = pyround
            (((g.module.tubes_y : ℝ) - 1) * g.module.spacing_y_mm +
              (g.geom.tube_od_mm + 2 * g.geom.fin_height_mm))) :=
  ⟨fun _ _ => rfl, fun _ => ⟨rfl, rfl⟩⟩

/-- C8 (counterexample): with zero fins — a valid geometry per the spec's
stated ranges — increasing the fin height from 100 mm to 200 mm does not
strictly increase `area_per_meter`. -/
theorem area_per_meter_not_strict_without_fins :
    ¬ (FinTubeGeometry.area_per_meter ⟨28, 100, 0, 0.85⟩ <
        FinTubeGeometry.area_per_meter ⟨28, 200, 0, 0.85⟩) := by
  unfold FinTubeGeometry.area_per_meter
  norm_num

/-- C8 (amended): for tube OD > 0 and fin efficiency > 0, `area_per_meter`
is strictly increasing in fin height provided at least one fin is present,
and strictly increasing in fin count provided the fin height is positive. -/
theorem area_per_meter_strictly_monotone (D ε : ℝ) (hD : 0 < D) (hε : 0 < ε) :
    (∀ (N : ℤ) (h₁ h₂ : ℝ), 1 ≤ N → h₁ < h₂ →
        FinTubeGeometry.area_per_meter ⟨D, h₁, N, ε⟩ <
          FinTubeGeometry.area_per_meter ⟨D, h₂, N, ε⟩)
    ∧ (∀ (h : ℝ) (N₁ N₂ : ℤ), 0 < h → N₁ < N₂ →
        FinTubeGeometry.area_per_meter ⟨D, h, N₁, ε⟩ <
          FinTubeGeometry.area_per_meter ⟨D, h, N₂, ε⟩) := by
  have hπD : 0 < 2 * Real.pi * (D / 1000) / 1000 := by
    apply div_pos _ (by norm_num)
    exact mul_pos (by positivity) (by linarith)
  constructor
  · intro N h₁ h₂ hN hh
    have hN' : (1 : ℝ) ≤ (N : ℝ) := by exact_mod_cast hN
    rw [area_per_meter_expand, area_per_meter_expand]
    have hc : 0 < ε * (N : ℝ) * (2 * Real.pi * (D / 1000) / 1000) :=
      mul_pos (mul_pos hε (by linarith)) hπD
    exact add_lt_add_left (mul_lt_mul_of_pos_left hh hc) _
  · intro h N₁ N₂ hh hN
    have hN' : (N₁ : ℝ) < (N₂ : ℝ) := by exact_mod_cast hN
    rw [area_per_meter_expand, area_per_meter_expand]
    nlinarith [mul_pos (mul_pos hε hπD) hh]

/-- C8 witness: concrete strict increases at 12 fins (height 100 → 200 mm)
and at height 200 mm (12 → 16 fins). -/
theorem area_per_meter_strictly_monotone_witness :
    (0 : ℝ) < 28 ∧ (0 : ℝ) < 0.85 ∧
      (FinTubeGeometry.area_per_meter ⟨28, 100, 12, 0.85⟩ <
        FinTubeGeometry.area_per_meter ⟨28, 200, 12, 0.85⟩) ∧
      (FinTubeGeometry.area_per_meter ⟨28, 200, 12, 0.85⟩ <
        FinTubeGeometry.area_per_meter ⟨28, 200, 16, 0.85⟩) := by
  have H := area_per_meter_strictly_monotone 28 0.85 (by norm_num) (by norm_num)
  exact ⟨by norm_num, by norm_num, H.1 12 100 200 (by norm_num) (by norm_num),
    H.2 200 12 16 (by norm_num) (by norm_num)⟩

/-- C9 (counterexample): called with `D_h = -1` (≤ 0), the code does not fail
fast: it silently returns a (complex) value — no invalid-input error is
raised for negative `D_h`. -/
theorem h_coefficient_py_silent_on_negative :
    AmbientConditions.h_coefficient_py ⟨15, 0.5⟩ (-1) ≠ none := by
  simp only [AmbientConditions.h_coefficient_py]
  rw [if_neg (by norm_num : ¬ ((-1 : ℝ) = 0))]
  exact Option.some_ne_none _

/-- C9 (amended): the Python evaluation of `h_coefficient` raises an error
(`ZeroDivisionError`, not a labelled invalid-input error) exactly when
`D_h = 0`; for every other `D_h`, including negative values, it completes and
returns a value. -/
theorem h_coefficient_py_error_iff (a : AmbientConditions) (D_h : ℝ) :
    AmbientConditions.h_coefficient_py a D_h = none ↔ D_h = 0 := by
  unfold AmbientConditions.h_coefficient_py
  by_cases hD : D_h = 0
  · simp [hD]
  · simp [hD]

/-- C10: the exposed area, tube length and tube count cancel between the
thermal capacitance and the convective conductance, so
`thermal_time_constant = (2700 × 0.002 × 900) / (3600 × h(D_h))` depends only
on the finned diameter and the ambient conditions. -/
theorem thermal_time_constant_area_cancels (g : Gasifier)
    (hD : 0 < g.geom.tube_od_mm) (hh : 0 ≤ g.geom.fin_height_mm)
    (hN : 0 ≤ g.geom.fins_per_tube) (hε : 0 ≤ g.geom.fin_efficiency)
    (hL : 0 < g.tube_length_mm) (hx : 1 ≤ g.module.tubes_x) (hy : 1 ≤ g.module.tubes_y) :
    g.thermal_time_constant =
      2700 * 0.002 * 900 /
        (3600 * g.ambient.h_coefficient ((g.geom.tube_od_mm + 2 * g.geom.fin_height_mm) / 1000)) := by
  have hA : 0 < g.geom.area_per_meter := by
    have hπ : 0 < Real.pi * (g.geom.tube_od_mm / 1000) := mul_pos Real.pi_pos (by linarith)
    have hN' : (0 : ℝ) ≤ (g.geom.fins_per_tube : ℝ) := by exact_mod_cast hN
    have hfin : 0 ≤ (g.geom.fins_per_tube : ℝ) *
        (2 * Real.pi * (g.geom.tube_od_mm / 1000) * g.geom.fin_height_mm / 1000) := by
      apply mul_nonneg hN'
      apply div_nonneg _ (by norm_num)
      apply mul_nonneg _ hh
      exact mul_nonneg (by positivity) (by linarith)
    have hfe := mul_nonneg hε hfin
    unfold FinTubeGeometry.area_per_meter
    linarith
  have hn : (0 : ℝ) < (g.module.n_tubes : ℝ) := by
    have h1 : (1 : ℤ) ≤ g.module.n_tubes := by
      unfold ModuleConfig.n_tubes
      calc (1 : ℤ) = 1 * 1 := by ring
        _ ≤ g.module.tubes_x * g.module.tubes_y :=
            mul_le_mul hx hy (by norm_num) (by linarith)
    exact_mod_cast lt_of_lt_of_le zero_lt_one h1
  simp only [Gasifier.thermal_time_constant]
  rcases eq_or_ne (g.ambient.h_coefficient
      ((g.geom.tube_od_mm + 2 * g.geom.fin_height_mm) / 1000)) 0 with h0 | h0
  · rw [h0]
    simp
  · have hL' : g.tube_length_mm ≠ 0 := ne_of_gt hL
    have hA' : g.geom.area_per_meter ≠ 0 := ne_of_gt hA
    have hn' : ((g.module.n_tubes : ℝ)) ≠ 0 := ne_of_gt hn
    field_simp
    ring

/-- C10 witness at the worked example's gasifier. -/
theorem thermal_time_constant_area_cancels_witness :
    (0 : ℝ) < 28 ∧
      G0.thermal_time_constant =
        2700 * 0.002 * 900 /
          (3600 * G0.ambient.h_coefficient
            ((G0.geom.tube_od_mm + 2 * G0.geom.fin_height_mm) / 1000)) := by
  refine ⟨by norm_num, thermal_time_constant_area_cancels G0 ?_ ?_ ?_ ?_ ?_ ?_ ?_⟩ <;>
    norm_num [G0]

end
